import Mathlib

/-!
Shallow embedding of the plugin-side resource lifecycle dispatcher of
terraform-plugin-framework, restricted to the parts exercised by
`proto6server.TestServerApplyResourceChange` and
`fromproto6.TestUpgradeResourceStateRequest`.

The dispatcher itself (`fwserver` create/update/delete handling and
`fromproto6.UpgradeResourceStateRequest`) is not part of the repository
slice; it is modelled here from the specification, with the repository's
own tests pinning the concrete behavior wherever they cover it.
-/

namespace TFPF

/-- Diagnostic severity, mirroring `diag.Severity` (warning or error). -/
inductive Severity where
  | warning
  | error
  deriving DecidableEq, BEq, Repr

/-- A diagnostic record, mirroring `diag.Diagnostic` and
`tfprotov6.Diagnostic`: severity plus summary and detail strings. -/
structure Diagnostic where
  severity : Severity
  summary : String
  detail : String
  deriving DecidableEq, BEq, Repr

/-- An ordered, append-only list of diagnostics, mirroring `diag.Diagnostics`. -/
abbrev Diagnostics := List Diagnostic

/-- Mirrors `diag.Diagnostics.HasError`: true iff some entry has error severity. -/
def Diagnostics.hasError (ds : Diagnostics) : Bool :=
  ds.any (fun d => d.severity == Severity.error)

/-- The error-severity entries of a diagnostics list, in order. -/
def Diagnostics.errors (ds : Diagnostics) : Diagnostics :=
  ds.filter (fun d => d.severity == Severity.error)

/-- A primitive attribute value: null, unknown, or a known string.  This is the
fragment of `tftypes.Value` needed by the test schema, which has only string
attributes. -/
inductive AttrVal where
  | null
  | unknown
  | str (s : String)
  deriving DecidableEq, BEq, Repr

/-- A wire/state value for an object-typed resource: either the null object
(the empty dynamic value `testEmptyDynamicValue` of the tests) or an object
with named attribute values.  Mirrors the `tftypes.Value` payload of a
`tfprotov6.DynamicValue` for the object schema used by the tests. -/
inductive Value where
  | null
  | obj (attrs : List (String × AttrVal))
  deriving DecidableEq, BEq, Repr

/-- Mirrors `tftypes.Value.IsNull` on the modelled fragment. -/
def Value.isNull : Value → Bool
  | Value.null => true
  | Value.obj _ => false

theorem Value.isNull_iff (v : Value) : v.isNull = true ↔ v = Value.null := by
  cases v <;> simp [Value.isNull]

/-- Mirrors `tfprotov6.ApplyResourceChangeRequest`: wire request with config,
planned state, prior state, optional provider meta, and type name.  Absent
dynamic values are represented by `Value.null`. -/
structure ApplyResourceChangeRequest where
  config : Value
  plannedState : Value
  priorState : Value
  providerMeta : Value
  typeName : String
  deriving DecidableEq, BEq, Repr

/-- Mirrors `tfprotov6.ApplyResourceChangeResponse`: wire response carrying
diagnostics and the new state. -/
structure ApplyResourceChangeResponse where
  diagnostics : Diagnostics
  newState : Value
  deriving DecidableEq, BEq, Repr

/-- Mirrors `resource.CreateRequest` (config, plan, provider meta). -/
structure CreateRequest where
  config : Value
  plan : Value
  providerMeta : Value

/-- Mirrors `resource.CreateResponse` (mutable state plus diagnostics). -/
structure CreateResponse where
  state : Value
  diagnostics : Diagnostics

/-- Mirrors `resource.UpdateRequest` (config, plan, prior state, provider meta). -/
structure UpdateRequest where
  config : Value
  plan : Value
  state : Value
  providerMeta : Value

/-- Mirrors `resource.UpdateResponse` (mutable state plus diagnostics). -/
structure UpdateResponse where
  state : Value
  diagnostics : Diagnostics

/-- Mirrors `resource.DeleteRequest` (prior state, provider meta). -/
structure DeleteRequest where
  state : Value
  providerMeta : Value

/-- Mirrors `resource.DeleteResponse` (mutable state plus diagnostics). -/
structure DeleteResponse where
  state : Value
  diagnostics : Diagnostics

/-- A provider resource implementation, mirroring `testprovider.Resource`:
one function per lifecycle method.  Go mutates the response in place; here
each method maps the pre-populated response to the final response. -/
structure Resource where
  create : CreateRequest → CreateResponse → CreateResponse
  update : UpdateRequest → UpdateResponse → UpdateResponse
  delete : DeleteRequest → DeleteResponse → DeleteResponse

/-- The synthesized diagnostic for a create that returned no state, with the
summary and detail expected by the `create-response-newstate-null` test. -/
def missingResourceStateAfterCreate : Diagnostic :=
  { severity := Severity.error
    summary := "Missing Resource State After Create"
    detail := "The Terraform Provider unexpectedly returned no resource state after having no errors in the resource creation. This is always an issue in the Terraform Provider and should be reported to the provider developers.\n\nThe resource may have been successfully created, but Terraform is not tracking it. Applying the configuration again with no other action may result in duplicate resource errors." }

/-- The synthesized diagnostic for an update that returned no state, with the
summary and detail expected by the `update-response-newstate-null` test. -/
def missingResourceStateAfterUpdate : Diagnostic :=
  { severity := Severity.error
    summary := "Missing Resource State After Update"
    detail := "The Terraform Provider unexpectedly returned no resource state after having no errors in the resource update. This is always an issue in the Terraform Provider and should be reported to the provider developers." }

/-- Modelled from the spec: the create lifecycle hands the provider a response
state that starts empty ("Output State initialized empty then handed to
provider"). -/
def createStartState : Value := Value.null

/-- Modelled from the spec: the update lifecycle pre-populates the response
state; the `update-request-config`, `update-request-plannedstate` and
`update-request-priorstate` tests pin it to a copy of the prior state (a
provider that never calls Set yields the old values as NewState). -/
def updateStartState (req : ApplyResourceChangeRequest) : Value := req.priorState

/-- Modelled from the spec and the `delete-response-diagnostics` test: the
delete lifecycle pre-populates the response state with the prior state. -/
def deleteStartState (req : ApplyResourceChangeRequest) : Value := req.priorState

/-- The create response as left by the provider: the provider's Create method
applied to the request containers and the pre-populated response. -/
def createProviderResult (r : Resource) (req : ApplyResourceChangeRequest) : CreateResponse :=
  r.create ⟨req.config, req.plannedState, req.providerMeta⟩ ⟨createStartState, []⟩

/-- The update response as left by the provider. -/
def updateProviderResult (r : Resource) (req : ApplyResourceChangeRequest) : UpdateResponse :=
  r.update ⟨req.config, req.plannedState, req.priorState, req.providerMeta⟩
    ⟨updateStartState req, []⟩

/-- The delete response as left by the provider. -/
def deleteProviderResult (r : Resource) (req : ApplyResourceChangeRequest) : DeleteResponse :=
  r.delete ⟨req.priorState, req.providerMeta⟩ ⟨deleteStartState req, []⟩

/-- Modelled from the spec (missing `fwserver` create handler): invoke the
provider's Create; if it raised no error diagnostic yet left the state null,
synthesize the "Missing Resource State After Create" error; encode the
response state as NewState. -/
def createResource (r : Resource) (req : ApplyResourceChangeRequest) :
    ApplyResourceChangeResponse :=
  let c := createProviderResult r req
  if Diagnostics.hasError c.diagnostics = false ∧ c.state = Value.null then
    ⟨c.diagnostics ++ [missingResourceStateAfterCreate], c.state⟩
  else
    ⟨c.diagnostics, c.state⟩

/-- Modelled from the spec (missing `fwserver` update handler): invoke the
provider's Update on a response state pre-populated from the prior state; if
it raised no error diagnostic yet left the state null (for example via
RemoveResource), synthesize the "Missing Resource State After Update" error;
encode the response state as NewState. -/
def updateResource (r : Resource) (req : ApplyResourceChangeRequest) :
    ApplyResourceChangeResponse :=
  let u := updateProviderResult r req
  if Diagnostics.hasError u.diagnostics = false ∧ u.state = Value.null then
    ⟨u.diagnostics ++ [missingResourceStateAfterUpdate], u.state⟩
  else
    ⟨u.diagnostics, u.state⟩

/-- Modelled from the spec (missing `fwserver` delete handler): invoke the
provider's Delete on a response state pre-populated from the prior state;
when no error diagnostic was raised the state is removed automatically (the
`delete-response-newstate` test: "should call resp.State.RemoveResource()
automatically"), so null is encoded; on error the state as left by the
provider is encoded. -/
def deleteResource (r : Resource) (req : ApplyResourceChangeRequest) :
    ApplyResourceChangeResponse :=
  let d := deleteProviderResult r req
  if Diagnostics.hasError d.diagnostics = false then
    ⟨d.diagnostics, Value.null⟩
  else
    ⟨d.diagnostics, d.state⟩

/-- The lifecycle method a request dispatches to. -/
inductive LifecycleMethod where
  | create
  | update
  | delete
  deriving DecidableEq, BEq, Repr

/-- Modelled from the spec: "ApplyResourceChange (Create/Update/Delete
dispatch keyed by prior/planned state nullity)". -/
def dispatchMethod (req : ApplyResourceChangeRequest) : LifecycleMethod :=
  if req.priorState.isNull = true then LifecycleMethod.create
  else if req.plannedState.isNull = true then LifecycleMethod.delete
  else LifecycleMethod.update

/-- Modelled from the spec (missing `proto6server.Server.ApplyResourceChange`
and its `fwserver` delegate): dispatch on state nullity and run exactly the
dispatched lifecycle handler. -/
def applyResourceChange (r : Resource) (req : ApplyResourceChangeRequest) :
    ApplyResourceChangeResponse :=
  match dispatchMethod req with
  | LifecycleMethod.create => createResource r req
  | LifecycleMethod.delete => deleteResource r req
  | LifecycleMethod.update => updateResource r req

/-- The state and diagnostics produced by the provider method the request
dispatches to, before the dispatcher's post-processing. -/
def lifecycleResult (r : Resource) (req : ApplyResourceChangeRequest) :
    Value × Diagnostics :=
  match dispatchMethod req with
  | LifecycleMethod.create =>
      ((createProviderResult r req).state, (createProviderResult r req).diagnostics)
  | LifecycleMethod.update =>
      ((updateProviderResult r req).state, (updateProviderResult r req).diagnostics)
  | LifecycleMethod.delete =>
      ((deleteProviderResult r req).state, (deleteProviderResult r req).diagnostics)

/-- Raw, version-stamped prior-format state bytes, mirroring
`tfprotov6.RawState` (modelled as its JSON payload). -/
structure RawState where
  json : String
  deriving DecidableEq, BEq, Repr

/-- A resource schema, mirroring `tfsdk.Schema` restricted to what the
upgrade-state conversion needs: the named attribute descriptors. -/
structure SchemaAttribute where
  required : Bool
  optionalFlag : Bool
  computed : Bool
  attrType : String
  deriving DecidableEq, BEq, Repr

/-- Mirrors `tfsdk.Schema` (attribute map fragment). -/
structure Schema where
  attributes : List (String × SchemaAttribute)
  deriving DecidableEq, BEq, Repr

/-- Mirrors `tfprotov6.UpgradeResourceStateRequest`. -/
structure Proto6UpgradeResourceStateRequest where
  rawState : Option RawState
  typeName : String
  version : Int
  deriving DecidableEq, BEq, Repr

/-- Mirrors `fwserver.UpgradeResourceStateRequest`. -/
structure FwUpgradeResourceStateRequest where
  rawState : Option RawState
  resourceSchema : Schema
  version : Int
  deriving DecidableEq, BEq, Repr

/-- The part of the missing-schema detail before the trailing reason, as
concatenated in the Go source of the test's expected diagnostic. -/
def unableToCreateEmptyStateDetailLead : String :=
  "An unexpected error was encountered when creating the empty state. This is always an issue in the Terraform Provider SDK used to implement the provider and should be reported to the provider developers.\n\nPlease report this to the provider developer:\n\n"

/-- The diagnostic produced when no resource schema is available for an
upgrade-state conversion, as expected by the `resourceschema-missing` test. -/
def unableToCreateEmptyStateDiag : Diagnostic :=
  { severity := Severity.error
    summary := "Unable to Create Empty State"
    detail := unableToCreateEmptyStateDetailLead ++ "Missing schema." }

/-- Modelled from the spec (missing `fromproto6.UpgradeResourceStateRequest`):
a nil protocol request converts to a nil framework request with no
diagnostics; a non-nil request without a resource schema fails with the
"Unable to Create Empty State" diagnostic; otherwise the framework request is
assembled from the raw state, the schema and the version. -/
def upgradeResourceStateRequest (input : Option Proto6UpgradeResourceStateRequest)
    (resourceSchema : Option Schema) :
    Option FwUpgradeResourceStateRequest × Diagnostics :=
  match input with
  | none => (none, [])
  | some req =>
    match resourceSchema with
    | none => (none, [unableToCreateEmptyStateDiag])
    | some s => (some ⟨req.rawState, s, req.version⟩, [])

end TFPF

namespace TFPF

theorem Diagnostics.errors_append (ds es : Diagnostics) :
    Diagnostics.errors (ds ++ es) = Diagnostics.errors ds ++ Diagnostics.errors es := by
  simp [Diagnostics.errors]

theorem Diagnostics.errors_eq_nil (ds : Diagnostics)
    (h : Diagnostics.hasError ds = false) : Diagnostics.errors ds = [] := by
  unfold Diagnostics.hasError at h
  rw [List.any_eq_false] at h
  unfold Diagnostics.errors
  rw [List.filter_eq_nil_iff]
  exact h

theorem Value.ne_null_of_isNull_eq_false (v : Value) (h : v.isNull = false) :
    v ≠ Value.null := by
  intro hv
  rw [hv] at h
  simp [Value.isNull] at h

/-- A provider resource that leaves every response exactly as pre-populated:
it adds no diagnostic and never touches the response state. -/
def noopResource : Resource where
  create := fun _ resp => resp
  update := fun _ resp => resp
  delete := fun _ resp => resp

/-- The config value of the create test cases. -/
def testConfigVal : Value :=
  Value.obj [("test_computed", AttrVal.null), ("test_required", AttrVal.str "test-config-value")]

/-- The planned-state value of the create test cases. -/
def testPlannedVal : Value :=
  Value.obj [("test_computed", AttrVal.str "test-plannedstate-value"),
             ("test_required", AttrVal.str "test-config-value")]

/-- The wire request of the `create-response-newstate-null` test: null prior
state, concrete config and plan. -/
def createNullReq : ApplyResourceChangeRequest :=
  ⟨testConfigVal, testPlannedVal, Value.null, Value.null, "test_resource"⟩

/-- The wire request of the `update-request-*` tests: non-null prior state
with the old values, non-null planned state with the new values. -/
def updateReqFix : ApplyResourceChangeRequest :=
  ⟨Value.obj [("test_computed", AttrVal.null), ("test_required", AttrVal.str "test-new-value")],
   Value.obj [("test_computed", AttrVal.str "test-plannedstate-value"),
              ("test_required", AttrVal.str "test-new-value")],
   Value.obj [("test_computed", AttrVal.null), ("test_required", AttrVal.str "test-old-value")],
   Value.null, "test_resource"⟩

/-- The wire request of the `delete-response-*` tests: null planned state,
non-null prior state. -/
def deleteReqFix : ApplyResourceChangeRequest :=
  ⟨Value.null, Value.null,
   Value.obj [("test_computed", AttrVal.null),
              ("test_required", AttrVal.str "test-priorstate-value")],
   Value.null, "test_resource"⟩

/-- Claim C1: for every Create invocation via ApplyResourceChange in which the
provider's Create method adds no error-severity diagnostic and never sets the
response state (leaving it null), the wire response contains exactly one error
diagnostic, whose summary is "Missing Resource State After Create", and the
response NewState equals the pre-call empty value. -/
theorem create_missing_state_synthesizes_error (r : Resource)
    (req : ApplyResourceChangeRequest)
    (hdisp : req.priorState.isNull = true)
    (hstate : (createProviderResult r req).state = Value.null)
    (hnoerr : Diagnostics.hasError (createProviderResult r req).diagnostics = false) :
    Diagnostics.errors (applyResourceChange r req).diagnostics =
      [missingResourceStateAfterCreate] ∧
    missingResourceStateAfterCreate.severity = Severity.error ∧
    missingResourceStateAfterCreate.summary = "Missing Resource State After Create" ∧
    (applyResourceChange r req).newState = createStartState := by
  have hd : dispatchMethod req = LifecycleMethod.create := by
    simp [dispatchMethod, hdisp]
  have happ : applyResourceChange r req = createResource r req := by
    unfold applyResourceChange
    rw [hd]
  rw [happ]
  simp only [createResource]
  rw [if_pos ⟨hnoerr, hstate⟩]
  refine ⟨?_, rfl, rfl, hstate⟩
  rw [Diagnostics.errors_append, Diagnostics.errors_eq_nil _ hnoerr]
  rfl

theorem create_missing_state_synthesizes_error_w :
    Diagnostics.errors (applyResourceChange noopResource createNullReq).diagnostics =
      [missingResourceStateAfterCreate] ∧
    missingResourceStateAfterCreate.severity = Severity.error ∧
    missingResourceStateAfterCreate.summary = "Missing Resource State After Create" ∧
    (applyResourceChange noopResource createNullReq).newState = createStartState :=
  create_missing_state_synthesizes_error noopResource createNullReq rfl rfl rfl

/-- A provider resource whose Update nulls the response state (the effect of
calling `resp.State.RemoveResource`) without adding a diagnostic. -/
def removeOnUpdateResource : Resource where
  create := fun _ resp => resp
  update := fun _ resp => ⟨Value.null, resp.diagnostics⟩
  delete := fun _ resp => resp

/-- Claim C2: for every Update invocation via ApplyResourceChange in which the
provider's Update method adds no error-severity diagnostic and leaves the
response state null (for example by calling RemoveResource), the wire response
contains exactly one error diagnostic, whose summary is "Missing Resource
State After Update", and the response NewState is the empty value. -/
theorem update_missing_state_synthesizes_error (r : Resource)
    (req : ApplyResourceChangeRequest)
    (h1 : req.priorState.isNull = false)
    (h2 : req.plannedState.isNull = false)
    (hstate : (updateProviderResult r req).state = Value.null)
    (hnoerr : Diagnostics.hasError (updateProviderResult r req).diagnostics = false) :
    Diagnostics.errors (applyResourceChange r req).diagnostics =
      [missingResourceStateAfterUpdate] ∧
    missingResourceStateAfterUpdate.severity = Severity.error ∧
    missingResourceStateAfterUpdate.summary = "Missing Resource State After Update" ∧
    (applyResourceChange r req).newState = Value.null := by
  have hd : dispatchMethod req = LifecycleMethod.update := by
    simp [dispatchMethod, h1, h2]
  have happ : applyResourceChange r req = updateResource r req := by
    unfold applyResourceChange
    rw [hd]
  rw [happ]
  simp only [updateResource]
  rw [if_pos ⟨hnoerr, hstate⟩]
  refine ⟨?_, rfl, rfl, hstate⟩
  rw [Diagnostics.errors_append, Diagnostics.errors_eq_nil _ hnoerr]
  rfl

theorem update_missing_state_synthesizes_error_w :
    Diagnostics.errors (applyResourceChange removeOnUpdateResource updateReqFix).diagnostics =
      [missingResourceStateAfterUpdate] ∧
    missingResourceStateAfterUpdate.severity = Severity.error ∧
    missingResourceStateAfterUpdate.summary = "Missing Resource State After Update" ∧
    (applyResourceChange removeOnUpdateResource updateReqFix).newState = Value.null :=
  update_missing_state_synthesizes_error removeOnUpdateResource updateReqFix rfl rfl rfl rfl

end TFPF

namespace TFPF

/-- One distinguishing warning per lifecycle method, used to observe which
method the dispatcher invokes. -/
def probeMarker : LifecycleMethod → Diagnostic
  | LifecycleMethod.create => ⟨Severity.warning, "create invoked", ""⟩
  | LifecycleMethod.update => ⟨Severity.warning, "update invoked", ""⟩
  | LifecycleMethod.delete => ⟨Severity.warning, "delete invoked", ""⟩

/-- A non-null state value set by the probe resource's Create. -/
def probeState : Value := Value.obj [("probe", AttrVal.str "probe")]

/-- A provider resource whose every lifecycle method appends its own marker
warning, so that the response diagnostics record exactly which methods ran. -/
def probeResource : Resource where
  create := fun _ resp => ⟨probeState, resp.diagnostics ++ [probeMarker LifecycleMethod.create]⟩
  update := fun _ resp => ⟨resp.state, resp.diagnostics ++ [probeMarker LifecycleMethod.update]⟩
  delete := fun _ resp => ⟨resp.state, resp.diagnostics ++ [probeMarker LifecycleMethod.delete]⟩

/-- Claim C3: for every ApplyResourceChange request, the lifecycle method
invoked is determined by the nullity of the prior and planned state values —
null prior state dispatches to Create, null planned state to Delete, both
non-null to Update — and no other lifecycle method is invoked: against the
probe resource the response carries exactly the marker of that one method. -/
theorem apply_dispatch_by_state_nullity (req : ApplyResourceChangeRequest) :
    (applyResourceChange probeResource req).diagnostics =
      [probeMarker (dispatchMethod req)] ∧
    dispatchMethod req =
      (if req.priorState.isNull = true then LifecycleMethod.create
       else if req.plannedState.isNull = true then LifecycleMethod.delete
       else LifecycleMethod.update) := by
  obtain ⟨config, planned, prior, meta, name⟩ := req
  cases prior with
  | null => exact ⟨rfl, rfl⟩
  | obj pattrs =>
    cases planned with
    | null => exact ⟨rfl, rfl⟩
    | obj qattrs => exact ⟨rfl, rfl⟩

/-- Claim C4: for every Update invocation in which the provider's Update
method never sets the response state (it equals the pre-populated value) and
adds no error diagnostic, the response NewState equals the prior state
unchanged. -/
theorem update_noop_preserves_prior_state (r : Resource)
    (req : ApplyResourceChangeRequest)
    (h1 : req.priorState.isNull = false)
    (h2 : req.plannedState.isNull = false)
    (hstate : (updateProviderResult r req).state = updateStartState req)
    (_hnoerr : Diagnostics.hasError (updateProviderResult r req).diagnostics = false) :
    (applyResourceChange r req).newState = req.priorState := by
  have hd : dispatchMethod req = LifecycleMethod.update := by
    simp [dispatchMethod, h1, h2]
  have happ : applyResourceChange r req = updateResource r req := by
    unfold applyResourceChange
    rw [hd]
  have hpr : req.priorState ≠ Value.null := Value.ne_null_of_isNull_eq_false _ h1
  have hneg : ¬(Diagnostics.hasError (updateProviderResult r req).diagnostics = false ∧
      (updateProviderResult r req).state = Value.null) := by
    intro hco
    exact hpr (hstate.symm.trans hco.2)
  rw [happ]
  simp only [updateResource]
  rw [if_neg hneg]
  exact hstate

theorem update_noop_preserves_prior_state_w :
    (applyResourceChange noopResource updateReqFix).newState = updateReqFix.priorState :=
  update_noop_preserves_prior_state noopResource updateReqFix rfl rfl rfl rfl

/-- Claim C5 counterexample: with a provider whose Update reads but never sets
the response state, at the concrete request of the `update-request-plannedstate`
test the encoded NewState is the prior state, not the (distinct) planned
state — refuting the claim that the response state starts as a copy of Plan
and that this copy is what gets encoded. -/
theorem update_newstate_not_plan_cex :
    (applyResourceChange noopResource updateReqFix).newState = updateReqFix.priorState ∧
    (applyResourceChange noopResource updateReqFix).newState ≠ updateReqFix.plannedState := by
  refine ⟨rfl, ?_⟩
  decide

/-- Claim C5 (amended): for every Update invocation, the response state handed
to the provider starts as a copy of the prior state (not the planned state),
and when the provider leaves it unmodified that possibly-unmodified copy of
the prior state is what is encoded as NewState. -/
theorem update_start_state_is_prior (r : Resource)
    (req : ApplyResourceChangeRequest)
    (h1 : req.priorState.isNull = false)
    (h2 : req.plannedState.isNull = false)
    (hid : ∀ (ureq : UpdateRequest) (resp : UpdateResponse),
      (r.update ureq resp).state = resp.state) :
    updateStartState req = req.priorState ∧
    (applyResourceChange r req).newState = updateStartState req := by
  have hstate : (updateProviderResult r req).state = updateStartState req := hid _ _
  have hd : dispatchMethod req = LifecycleMethod.update := by
    simp [dispatchMethod, h1, h2]
  have happ : applyResourceChange r req = updateResource r req := by
    unfold applyResourceChange
    rw [hd]
  have hpr : req.priorState ≠ Value.null := Value.ne_null_of_isNull_eq_false _ h1
  have hneg : ¬(Diagnostics.hasError (updateProviderResult r req).diagnostics = false ∧
      (updateProviderResult r req).state = Value.null) := by
    intro hco
    exact hpr (hstate.symm.trans hco.2)
  refine ⟨rfl, ?_⟩
  rw [happ]
  simp only [updateResource]
  rw [if_neg hneg]
  exact hstate

theorem update_start_state_is_prior_w :
    updateStartState updateReqFix = updateReqFix.priorState ∧
    (applyResourceChange noopResource updateReqFix).newState = updateStartState updateReqFix :=
  update_start_state_is_prior noopResource updateReqFix rfl rfl (fun _ _ => rfl)

/-- A provider resource whose Delete appends a warning and an error and leaves
the response state untouched, as in the `delete-response-diagnostics` test. -/
def errorOnDeleteResource : Resource where
  create := fun _ resp => resp
  update := fun _ resp => resp
  delete := fun _ resp =>
    ⟨resp.state,
     resp.diagnostics ++
       [⟨Severity.warning, "warning summary", "warning detail"⟩,
        ⟨Severity.error, "error summary", "error detail"⟩]⟩

/-- Claim C6 counterexample: at the concrete request of the
`delete-response-diagnostics` test, a provider Delete that raises an error
diagnostic without setting the state yields the prior state as NewState, not
null — refuting the claim that the delete response state defaults to null and
that null is encoded whenever the provider errors without setting it. -/
theorem delete_error_keeps_state_cex :
    (applyResourceChange errorOnDeleteResource deleteReqFix).newState =
      deleteReqFix.priorState ∧
    (applyResourceChange errorOnDeleteResource deleteReqFix).newState ≠ Value.null ∧
    Diagnostics.hasError
      (applyResourceChange errorOnDeleteResource deleteReqFix).diagnostics = true := by
  refine ⟨rfl, ?_, rfl⟩
  decide

/-- Claim C6 (amended): for every Delete invocation, the response state starts
as a copy of the prior state; when the provider raises no error diagnostic the
dispatcher removes the state automatically and null is encoded as NewState,
and when the provider raises an error diagnostic the state as left by the
provider (the prior-state copy when unmutated) is encoded as NewState. -/
theorem delete_newstate_by_error (r : Resource)
    (req : ApplyResourceChangeRequest)
    (h1 : req.priorState.isNull = false)
    (h2 : req.plannedState.isNull = true) :
    deleteStartState req = req.priorState ∧
    (applyResourceChange r req).newState =
      (if Diagnostics.hasError (deleteProviderResult r req).diagnostics = false
       then Value.null
       else (deleteProviderResult r req).state) := by
  have hd : dispatchMethod req = LifecycleMethod.delete := by
    simp [dispatchMethod, h1, h2]
  have happ : applyResourceChange r req = deleteResource r req := by
    unfold applyResourceChange
    rw [hd]
  refine ⟨rfl, ?_⟩
  rw [happ]
  simp only [deleteResource]
  by_cases hc : Diagnostics.hasError (deleteProviderResult r req).diagnostics = false
  · rw [if_pos hc, if_pos hc]
  · rw [if_neg hc, if_neg hc]

theorem delete_newstate_by_error_w :
    deleteStartState deleteReqFix = deleteReqFix.priorState ∧
    (applyResourceChange errorOnDeleteResource deleteReqFix).newState =
      (if Diagnostics.hasError
            (deleteProviderResult errorOnDeleteResource deleteReqFix).diagnostics = false
       then Value.null
       else (deleteProviderResult errorOnDeleteResource deleteReqFix).state) :=
  delete_newstate_by_error errorOnDeleteResource deleteReqFix rfl rfl

/-- Claim C7: for every Delete invocation in which the provider's Delete adds
no error-severity diagnostic and does not mutate the response state, the
response NewState encodes to the null value, signaling full removal. -/
theorem delete_noop_encodes_null (r : Resource)
    (req : ApplyResourceChangeRequest)
    (h1 : req.priorState.isNull = false)
    (h2 : req.plannedState.isNull = true)
    (_hstate : (deleteProviderResult r req).state = deleteStartState req)
    (hnoerr : Diagnostics.hasError (deleteProviderResult r req).diagnostics = false) :
    (applyResourceChange r req).newState = Value.null := by
  have hd : dispatchMethod req = LifecycleMethod.delete := by
    simp [dispatchMethod, h1, h2]
  have happ : applyResourceChange r req = deleteResource r req := by
    unfold applyResourceChange
    rw [hd]
  rw [happ]
  simp only [deleteResource]
  rw [if_pos hnoerr]

theorem delete_noop_encodes_null_w :
    (applyResourceChange noopResource deleteReqFix).newState = Value.null :=
  delete_noop_encodes_null noopResource deleteReqFix rfl rfl rfl rfl

end TFPF

namespace TFPF

/-- Claim C9: for every lifecycle invocation, the diagnostics produced by the
provider appear in the wire response exactly as produced — same order,
warnings and errors interleaved as added, never reordered by severity.  The
dispatcher only ever appends: the response diagnostics are the provider's
list either unchanged or followed by the single synthesized missing-state
diagnostic of the dispatched method. -/
theorem lifecycle_diagnostics_order_preserved (r : Resource)
    (req : ApplyResourceChangeRequest) (ds : Diagnostics)
    (hd : (lifecycleResult r req).2 = ds) :
    (applyResourceChange r req).diagnostics = ds ∨
    (applyResourceChange r req).diagnostics = ds ++ [missingResourceStateAfterCreate] ∨
    (applyResourceChange r req).diagnostics = ds ++ [missingResourceStateAfterUpdate] := by
  cases hm : dispatchMethod req with
  | create =>
    have hds : ds = (createProviderResult r req).diagnostics := by
      rw [← hd]
      unfold lifecycleResult
      rw [hm]
    have happ : applyResourceChange r req = createResource r req := by
      unfold applyResourceChange
      rw [hm]
    rw [happ]
    simp only [createResource]
    by_cases hc : Diagnostics.hasError (createProviderResult r req).diagnostics = false ∧
        (createProviderResult r req).state = Value.null
    · rw [if_pos hc, hds]
      exact Or.inr (Or.inl rfl)
    · rw [if_neg hc, hds]
      exact Or.inl rfl
  | update =>
    have hds : ds = (updateProviderResult r req).diagnostics := by
      rw [← hd]
      unfold lifecycleResult
      rw [hm]
    have happ : applyResourceChange r req = updateResource r req := by
      unfold applyResourceChange
      rw [hm]
    rw [happ]
    simp only [updateResource]
    by_cases hc : Diagnostics.hasError (updateProviderResult r req).diagnostics = false ∧
        (updateProviderResult r req).state = Value.null
    · rw [if_pos hc, hds]
      exact Or.inr (Or.inr rfl)
    · rw [if_neg hc, hds]
      exact Or.inl rfl
  | delete =>
    have hds : ds = (deleteProviderResult r req).diagnostics := by
      rw [← hd]
      unfold lifecycleResult
      rw [hm]
    have happ : applyResourceChange r req = deleteResource r req := by
      unfold applyResourceChange
      rw [hm]
    rw [happ]
    simp only [deleteResource]
    by_cases hc : Diagnostics.hasError (deleteProviderResult r req).diagnostics = false
    · rw [if_pos hc, hds]
      exact Or.inl rfl
    · rw [if_neg hc, hds]
      exact Or.inl rfl

/-- A provider resource whose Create appends a warning and then an error
without setting the state, as in the `create-response-diagnostics` test. -/
def errorOnCreateResource : Resource where
  create := fun _ resp =>
    ⟨resp.state,
     resp.diagnostics ++
       [⟨Severity.warning, "warning summary", "warning detail"⟩,
        ⟨Severity.error, "error summary", "error detail"⟩]⟩
  update := fun _ resp => resp
  delete := fun _ resp => resp

theorem lifecycle_diagnostics_order_preserved_w :
    (applyResourceChange errorOnCreateResource createNullReq).diagnostics =
      [⟨Severity.warning, "warning summary", "warning detail"⟩,
       ⟨Severity.error, "error summary", "error detail"⟩] ∨
    (applyResourceChange errorOnCreateResource createNullReq).diagnostics =
      [⟨Severity.warning, "warning summary", "warning detail"⟩,
       ⟨Severity.error, "error summary", "error detail"⟩] ++
        [missingResourceStateAfterCreate] ∨
    (applyResourceChange errorOnCreateResource createNullReq).diagnostics =
      [⟨Severity.warning, "warning summary", "warning detail"⟩,
       ⟨Severity.error, "error summary", "error detail"⟩] ++
        [missingResourceStateAfterUpdate] :=
  lifecycle_diagnostics_order_preserved errorOnCreateResource createNullReq
    [⟨Severity.warning, "warning summary", "warning detail"⟩,
     ⟨Severity.error, "error summary", "error detail"⟩] rfl

/-- Claim C8: for every UpgradeResourceState request conversion that is handed
a non-nil protocol request but no resource schema, the result is a nil
framework request plus exactly one error diagnostic whose summary is "Unable
to Create Empty State" and whose detail ends with "Missing schema.". -/
theorem upgrade_missing_schema_diag (req : Proto6UpgradeResourceStateRequest) :
    upgradeResourceStateRequest (some req) none =
      (none, [unableToCreateEmptyStateDiag]) ∧
    unableToCreateEmptyStateDiag.severity = Severity.error ∧
    unableToCreateEmptyStateDiag.summary = "Unable to Create Empty State" ∧
    ∃ lead, unableToCreateEmptyStateDiag.detail = lead ++ "Missing schema." :=
  ⟨rfl, rfl, rfl, unableToCreateEmptyStateDetailLead, rfl⟩

/-- Claim C10: converting a nil protocol UpgradeResourceState request yields a
nil framework request and no diagnostics, regardless of whether a resource
schema was supplied — the missing-schema error path is not taken. -/
theorem upgrade_nil_request (resourceSchema : Option Schema) :
    upgradeResourceStateRequest none resourceSchema = (none, []) := rfl

end TFPF
